import Mathlib

/-!
Verification of the UniFRA multi-format FRA ingestion pipeline.

This file is a shallow embedding, in Lean 4, of the ingestion core of the
UniFRA repository: the format detector and parser adapter
(`parsers/adapter_map.py`), the CSV parser (`parsers/csv_parser.py`), the
XML parser's parallel-array fallback (`parsers/xml_parser.py`), the Omicron
binary writer (`parsers/proprietary_emulator.py`), and the signal
normalizer (`preproc/normalize.py`).

Modelling conventions:
- Python strings are `List Char` (`PyStr`); Python byte strings are
  `List Nat` (one `Nat` per byte).
- Python floats are modelled as `ℚ`.  Environment-determined numerical
  kernels that the claims do not depend on pointwise (IEEE bit encodings,
  `log10`, the values of `np.logspace`, the fitted cubic spline, the
  Savitzky-Golay and wavelet filters) are passed as explicit function
  parameters, so every theorem quantifies over them; everything whose
  values the claims do depend on (sorting, deduplication, clipping,
  thresholds, the linear-interpolation fallback, min-max normalization)
  is implemented concretely.
- Fallible Python code returns `Except PyErr`.
-/

namespace UniFRA

/-- Python string, modelled as a list of characters. -/
abbrev PyStr := List Char

/-- Python exceptions raised by the ingestion core, one constructor per
distinct raise site relevant to the claims. -/
inductive PyErr where
  /-- `FileNotFoundError` -/
  | fileNotFound : PyErr
  /-- `ValueError("Empty CSV file")` -/
  | emptyCsvFile : PyErr
  /-- `ValueError("Insufficient data rows in CSV file")` -/
  | insufficientRows : PyErr
  /-- `ValueError("Could not identify frequency and magnitude columns")` -/
  | noColumns : PyErr
  /-- `ValueError("Insufficient valid data points (minimum 10 required)")`,
  `ValueError("Insufficient frequency points after filtering")` — the
  `InsufficientData` class of the spec's error taxonomy. -/
  | insufficientData : PyErr
  /-- `ValueError("Insufficient frequency data points found in XML")` — the
  XML parser's `MalformedRecord`-class failure. -/
  | malformedXml : PyErr
  /-- `ValueError("Unsupported file format: ...")` raised by
  `FRAParserAdapter.parse_file`. -/
  | unsupportedFormat : PyErr
  /-- `io.UnsupportedOperation: read` — raised when `.read()` is called on a
  file handle opened in write-only mode `'wb'`. -/
  | unsupportedOperationRead : PyErr
  /-- `ValueError` escaping from a `float(...)` conversion. -/
  | floatValueError : PyErr
  /-- `AttributeError: module 'hashlib' has no attribute 'crc32'` -/
  | attributeErrorCrc32 : PyErr
  deriving DecidableEq, Repr

instance {ε α : Type} [DecidableEq ε] [DecidableEq α] : DecidableEq (Except ε α) :=
  fun a b =>
    match a, b with
    | .error e, .error f =>
      if h : e = f then .isTrue (congrArg Except.error h)
      else .isFalse fun hc => h (Except.error.inj hc)
    | .error _, .ok _ => .isFalse fun hc => Except.noConfusion hc
    | .ok _, .error _ => .isFalse fun hc => Except.noConfusion hc
    | .ok x, .ok y =>
      if h : x = y then .isTrue (congrArg Except.ok h)
      else .isFalse fun hc => h (Except.ok.inj hc)

/-! ## Python string primitives -/

/-- The characters Python's `str.strip()` removes by default. -/
def isPySpace (c : Char) : Bool :=
  c = ' ' ∨ c = '\t' ∨ c = '\n' ∨ c = '\x0d' ∨ c = '\x0b' ∨ c = '\x0c'

/-- Python `str.strip()`. -/
def pyStrip (s : PyStr) : PyStr :=
  ((s.dropWhile isPySpace).reverse.dropWhile isPySpace).reverse

/-- Python `str.lower()` (ASCII case folding, which is all the pipeline's
keyword tables need). -/
def pyLower (s : PyStr) : PyStr := s.map Char.toLower

/-- Python `needle in haystack` substring test. -/
def containsSub (haystack needle : PyStr) : Bool :=
  haystack.tails.any fun t => needle.isPrefixOf t

/-- Python `elem in s` membership test for a single character. -/
def containsChar (s : PyStr) (c : Char) : Bool := s.contains c

/-- Python `s.count(c)` for a single-character pattern. -/
def pyCount (s : PyStr) (c : Char) : Nat := s.countP (· = c)

/-- Python `s.split(sep)` for a single-character separator: keeps empty
fields, e.g. `"1,,2".split(',') = ["1","","2"]`. -/
def pySplit (s : PyStr) (sep : Char) : List PyStr := s.splitOn sep

/-- Python `s.startswith(p)`. -/
def pyStartsWith (s p : PyStr) : Bool := p.isPrefixOf s

/-- Python `s.replace(old, new)` with `new = ""`: removes every occurrence
of `old` (used for `val.replace('MVA', '')`). -/
def pyRemoveAll (old : PyStr) : PyStr → PyStr
  | [] => []
  | c :: rest =>
    if h : old ≠ [] ∧ old.isPrefixOf (c :: rest) then
      pyRemoveAll old ((c :: rest).drop old.length)
    else
      c :: pyRemoveAll old rest
termination_by s => s.length
decreasing_by
  · have hlen : 0 < old.length := List.length_pos.mpr h.1
    simp only [List.length_drop, List.length_cons]
    omega
  · simp

/-- Python `s.split(sep, 1)` (used for `line[1:].split(':', 1)`): the text
before the first occurrence of `sep`, and the text after it. -/
def pySplitFirst (s : PyStr) (sep : Char) : PyStr × Option PyStr :=
  match s.splitOn sep with
  | [] => ([], none)
  | [x] => (x, none)
  | x :: y :: rest => (x, some (List.intercalate [sep] (y :: rest)))

/-! ## Python `float(...)` on plain decimal literals

`parseFloat?` models CPython's `float(str)` on the inputs the claims and
witnesses exercise: surrounding whitespace is stripped, an optional sign is
followed by a decimal literal `digits [ '.' digits ]` with at least one
digit.  (CPython also accepts exponents, `inf`/`nan` and underscores; none
of those occur in the concrete inputs used below, and the universally
quantified theorems only ever hypothesise whether a cell parses, via this
function.)  An unparseable string is `none`, modelling `ValueError`. -/

/-- Numeric value of a digit string (most significant first). -/
def digitsVal (ds : List Char) : ℚ :=
  ds.foldl (fun acc c => acc * 10 + (c.toNat - '0'.toNat : ℕ)) 0

/-- Parse `digits [ '.' digits ]` with at least one digit overall. -/
def parseUnsignedFloat? (s : PyStr) : Option ℚ :=
  let ip := s.takeWhile Char.isDigit
  let rest := s.dropWhile Char.isDigit
  match rest with
  | [] => if ip.isEmpty then none else some (digitsVal ip)
  | '.' :: fp =>
    if fp.all Char.isDigit ∧ ¬(ip.isEmpty ∧ fp.isEmpty) then
      some (digitsVal ip + digitsVal fp / (10 : ℚ) ^ fp.length)
    else none
  | _ => none

/-- Python `float(s)` on plain decimal literals (see above). -/
def parseFloat? (s : PyStr) : Option ℚ :=
  match pyStrip s with
  | '-' :: r => (parseUnsignedFloat? r).map Neg.neg
  | '+' :: r => parseUnsignedFloat? r
  | t => parseUnsignedFloat? t

/-! ## Canonical record (§3 of the spec; dict layout from the parsers) -/

/-- `asset_metadata` section. -/
structure AssetMetadata where
  asset_id : PyStr
  manufacturer : PyStr
  model : PyStr
  rating_MVA : ℚ
  winding_config : PyStr
  serial : PyStr
  year_installed : ℕ
  voltage_levels : List ℚ
  deriving DecidableEq, Repr

/-- `test_info` section. -/
structure TestInfo where
  test_id : PyStr
  date : PyStr
  technician : PyStr
  instrument : PyStr
  test_voltage : ℚ
  coupling : PyStr
  ambient_temp : ℚ
  deriving DecidableEq, Repr

/-- `measurement` section.  `phases` is `none` when the `"phases"` key is
absent from the dict. -/
structure Measurement where
  frequencies : List ℚ
  magnitudes : List ℚ
  phases : Option (List ℚ)
  unit : PyStr
  /-- the `"phase_unit"` key, set alongside `phases` by the text parsers -/
  phase_unit : Option PyStr
  connection : PyStr
  resolution : ℕ
  freq_start : ℚ
  freq_end : ℚ
  deriving DecidableEq, Repr

/-- `raw_file` section. -/
structure RawFileInfo where
  filename : PyStr
  vendor_name : PyStr
  original_format : PyStr
  file_size : ℕ
  parser_version : PyStr
  deriving DecidableEq, Repr

/-- The canonical FRA record: the dict every codec produces and the
Normalizer consumes. -/
structure CanonicalRecord where
  asset_metadata : AssetMetadata
  test_info : TestInfo
  measurement : Measurement
  raw_file : RawFileInfo
  deriving DecidableEq, Repr

/-! ## Canonical Validator — `FRAParserAdapter.validate_canonical_data`
(`parsers/adapter_map.py`, lines 250-299)

The Python function first checks that the four top-level keys and each
section's required sub-keys are present and that the arrays are `list`s; in
this typed embedding a `CanonicalRecord` always carries all of those
fields, so those membership checks are identically true and the remaining
content of the function is the length and count checks below.  The code
performs no monotonicity or uniqueness check on `frequencies`. -/

/-- `validate_canonical_data(data)` (the array-shape checks; see above). -/
def validate_canonical_data (r : CanonicalRecord) : Bool :=
  let fs := r.measurement.frequencies
  let ms := r.measurement.magnitudes
  (fs.length == ms.length) && (decide (10 ≤ fs.length)) &&
    (match r.measurement.phases with
     | some ps => ps.length == fs.length
     | none => true)

/-- `frequencies` strictly increasing (each entry less than the next) —
the property the spec's invariant asserts of validated records. -/
def strictlyIncreasing (l : List ℚ) : Bool :=
  (l.zip l.tail).all fun p => p.1 < p.2

/-! ## Format Detector — `FRAParserAdapter.detect_file_format`
(`parsers/adapter_map.py`, lines 52-113) and the routing switch of
`FRAParserAdapter.parse_file` (lines 229-248). -/

/-- The format tags `detect_file_format` can return. -/
inductive FFormat where
  | csv | xml | json | omicron | doble | megger | newtons4th
  /-- the `'binary'` fallback tag of line 113 -/
  | binary
  deriving DecidableEq, Repr

/-- ASCII bytes of a signature string. -/
def bytesOfAscii (s : String) : List Nat := s.toList.map Char.toNat

/-- `self.extension_map` (lines 30-39), in insertion order. -/
def extension_map : List (PyStr × FFormat) :=
  [(".csv".toList, .csv), (".txt".toList, .csv), (".xml".toList, .xml),
   (".json".toList, .json), (".frx".toList, .omicron), (".dbl".toList, .doble),
   (".meg".toList, .megger), (".n4f".toList, .newtons4th)]

/-- `self.binary_signatures` (lines 42-47), in insertion order — the order
the detection loop of lines 74-77 iterates in. -/
def binary_signatures : List (List Nat × FFormat) :=
  [(bytesOfAscii "OMICRON_FRX", .omicron), (bytesOfAscii "DOBLE_M4000", .doble),
   (bytesOfAscii "MEGGER_FRAX", .megger), (bytesOfAscii "N4TH_ANALYZER", .newtons4th)]

/-- `self.csv_patterns` (line 50). -/
def csv_patterns : List Char := [',', ';', '\t', '|']

/-- Python `signature in header` on byte strings. -/
def containsBytes (haystack needle : List Nat) : Bool :=
  haystack.tails.any fun t => needle.isPrefixOf t

/-- `header.decode('utf-8', errors='ignore')`.  With `errors='ignore'` the
decode never raises (so the `except UnicodeDecodeError` arm of lines
108-109 is unreachable); ASCII bytes decode to themselves and invalid
bytes are dropped.  This embedding keeps bytes below 128 and drops the
rest, which is exact for ASCII content and for stray non-ASCII bytes;
multi-byte UTF-8 sequences (which none of the theorems below exercise
past the earlier detection stages) would decode to non-ASCII characters
instead of being dropped. -/
def decodeUtf8Ignore (bs : List Nat) : PyStr :=
  (bs.filter (· < 128)).map Char.ofNat

/-- `detect_file_format`.  `found` models `file_path.exists()`, `ext` the
(raw) `file_path.suffix`, `content` the file's bytes.  `jsonOk` stands for
`json.loads(header_text[:512])` succeeding — an external library call that
is only consulted when the decoded text begins with `'\x7b'` or `'['`. -/
def detect_file_format (jsonOk : PyStr → Bool) (found : Bool) (ext : PyStr)
    (content : List Nat) : Except PyErr FFormat :=
  if ¬found then .error .fileNotFound
  else
    match (extension_map.find? fun p => p.1 == pyLower ext) with
    | some p => .ok p.2
    | none =>
      let header := content.take 1024
      match (binary_signatures.find? fun p => containsBytes header p.1) with
      | some p => .ok p.2
      | none =>
        let text := decodeUtf8Ignore header
        if pyStartsWith (pyStrip text) "<?xml".toList ∨ containsChar (text.take 100) '<' then
          .ok .xml
        else if (pyStartsWith (pyStrip text) ['\x7b'] ∨ pyStartsWith (pyStrip text) ['[']) ∧
            jsonOk (text.take 512) then
          .ok .json
        else if csv_patterns.any (fun d => containsChar text d ∧ 5 < pyCount text d) then
          .ok .csv
        else if text.any Char.isDigit ∧ containsChar text '\n' then
          .ok .csv
        else
          .ok .binary

/-- The action `FRAParserAdapter.parse_file` takes for each detected
format tag (lines 229-248): which parser is invoked, or the
`ValueError("Unsupported file format: ...")` raise of line 244. -/
inductive RouteTarget where
  | csvParse | xmlParse | jsonParse
  /-- `self.binary_parser.read_file(...)` -/
  | binaryParse
  /-- `raise ValueError("Unsupported file format: ...")` -/
  | unsupportedError
  deriving DecidableEq, Repr

/-- The routing switch of `parse_file` (lines 230-244). -/
def parse_route : FFormat → RouteTarget
  | .csv => .csvParse
  | .xml => .xmlParse
  | .json => .jsonParse
  | .omicron | .doble | .megger | .newtons4th => .binaryParse
  | .binary => .unsupportedError

/-- `json.loads` placeholder used only to close theorems whose inputs never
reach the JSON branch (their decoded text does not begin with `'\x7b'` or
`'['`, so `json.loads` is never called and this value is irrelevant). -/
def jsonLoadsUnreached : PyStr → Bool := fun _ => false

/-! ## XML parallel-array fallback —
`XMLParser.parse_frequency_data` (`parsers/xml_parser.py`, lines 130-166)

The branch taken when no repeated point elements exist and array-style
`Frequencies`/`Magnitudes` elements were located: their text contents are
split on the first applicable delimiter.  `float(x.strip())` failures in
this branch are uncaught and propagate (`floatValueError`). -/

/-- The candidate separators of line 153, in order. -/
def xmlSeparators : List Char := [',', ';', ' ', '\t', '\n']

/-- `[float(x.strip()) for x in text.split(separator) if x.strip()]`. -/
def parseTokens (sep : Char) (s : PyStr) : Except PyErr (List ℚ) :=
  let toks := ((pySplit s sep).map pyStrip).filter (· ≠ [])
  toks.foldr (fun t acc => do
    match parseFloat? t with
    | some v => let vs ← acc; pure (v :: vs)
    | none => .error .floatValueError) (pure [])

/-- The `for separator in [',', ';', ' ', '\t', '\n']` loop of lines
153-161: the first separator occurring in the frequency text whose split
yields equal-length lists of **more than 10** values wins; otherwise the
data arrays stay empty. -/
def xmlArrayLoop : List Char → PyStr → PyStr → Except PyErr (List ℚ × List ℚ)
  | [], _, _ => .ok ([], [])
  | sep :: rest, ft, mt =>
    if containsChar ft sep then
      match parseTokens sep ft with
      | .error e => .error e
      | .ok fv =>
        match parseTokens sep mt with
        | .error e => .error e
        | .ok mv =>
          if fv.length = mv.length ∧ 10 < fv.length then .ok (fv, mv)
          else xmlArrayLoop rest ft mt
    else xmlArrayLoop rest ft mt

/-- `parse_frequency_data` specialised to the parallel-array fallback: the
loop above followed by the final `len(data['frequencies']) < 10` guard of
lines 163-164 (the `MalformedRecord`-class failure). -/
def parse_frequency_data_arrays (ft mt : PyStr) : Except PyErr (List ℚ × List ℚ) :=
  match xmlArrayLoop xmlSeparators ft mt with
  | .error e => .error e
  | .ok (fs, ms) =>
    if fs.length < 10 then .error .malformedXml else .ok (fs, ms)

/-! ## Omicron binary writer —
`ProprietaryFormatEmulator.write_omicron_frx`
(`parsers/proprietary_emulator.py`, lines 43-96)

The output file is opened with `open(output_path, 'wb')` — a **write-only**
buffered handle.  After all fields are written, the checksum step of lines
92-96 executes `f.seek(0); data = f.read()`; calling `.read()` on a handle
opened `'wb'` raises `io.UnsupportedOperation: read`, so the write never
completes.  (Were the read to succeed, the next expression
`hashlib.crc32(data)` would raise `AttributeError`: the `hashlib` module
has no `crc32` — CRC32 lives in `zlib`/`binascii`.)

IEEE-754 encodings of Python floats are environment kernels: `packF32` and
`packF64` parameters stand for `struct.pack('<f', x)` / `struct.pack('<d', x)`. -/

/-- A Python binary file handle.  `mode_readable` is `False` for a handle
opened `'wb'`. -/
structure PyFileW where
  mode_readable : Bool
  buf : List Nat
  deriving DecidableEq, Repr

/-- `open(path, 'wb')`: empty file, write-only. -/
def openWb : PyFileW := ⟨false, []⟩

/-- `f.write(bs)` (the handle's position is at the end throughout the
writer, so a write appends). -/
def fwrite (h : PyFileW) (bs : List Nat) : PyFileW := { h with buf := h.buf ++ bs }

/-- `f.seek(0)` followed by `f.read()`: returns the whole buffer on a
readable handle and raises `io.UnsupportedOperation` on a write-only one. -/
def freadAll (h : PyFileW) : Except PyErr (List Nat) :=
  if h.mode_readable then .ok h.buf else .error .unsupportedOperationRead

/-- `struct.pack('<I', n)`: 4 little-endian bytes. -/
def packU32le (n : Nat) : List Nat :=
  [n % 256, n / 256 % 256, n / 2 ^ 16 % 256, n / 2 ^ 24 % 256]

/-- `s.encode('utf-8')` for the ASCII metadata strings the writer handles
(one byte per character). -/
def encodeUtf8 (s : PyStr) : List Nat := s.map Char.toNat

/-- `struct.pack('<Ns', b)`: truncate to `n` bytes and zero-pad to `n`. -/
def packFixed (n : Nat) (bs : List Nat) : List Nat :=
  bs.take n ++ List.replicate (n - (bs.take n).length) 0

/-- `self.vendor_signatures['omicron']` = `b'OMICRON_FRX_V2.1'`. -/
def omicronSignature : List Nat := bytesOfAscii "OMICRON_FRX_V2.1"

/-- `write_omicron_frx(canonical_data, output_path)`.  Returns the file's
final byte content on success; as explained above the checksum step always
raises, so the result is always `io.UnsupportedOperation`. -/
def write_omicron_frx (packF32 packF64 : ℚ → List Nat) (r : CanonicalRecord) :
    Except PyErr (List Nat) := do
  let m := r.measurement
  let phases := m.phases.getD (List.replicate m.frequencies.length 0)
  let h := openWb
  -- header signature, zero-padded to 64 bytes
  let h := fwrite h omicronSignature
  let h := fwrite h (List.replicate (64 - omicronSignature.length) 0)
  -- format version
  let h := fwrite h (packU32le 0x00020001)
  -- asset metadata section (strings byte-truncated to 32 then packed '<32s')
  let h := fwrite h (packFixed 32 ((encodeUtf8 r.asset_metadata.asset_id).take 32))
  let h := fwrite h (packFixed 32 ((encodeUtf8 r.asset_metadata.manufacturer).take 32))
  let h := fwrite h (packFixed 32 ((encodeUtf8 r.asset_metadata.model).take 32))
  let h := fwrite h (packF32 r.asset_metadata.rating_MVA)
  -- test info section
  let h := fwrite h (packFixed 32 ((encodeUtf8 r.test_info.test_id).take 32))
  let h := fwrite h (packF32 r.test_info.test_voltage)
  let h := fwrite h (packF32 r.test_info.ambient_temp)
  -- measurement section header
  let h := fwrite h (packU32le m.frequencies.length)
  let h := fwrite h (packF64 (m.frequencies.getD 0 0))
  let h := fwrite h (packF64 (m.frequencies.getD (m.frequencies.length - 1) 0))
  let h := fwrite h (packFixed 16 ((encodeUtf8 m.connection).take 16))
  -- data section: per point f64 freq, f32 magnitude, f32 phase
  let h := fwrite h (((List.range m.frequencies.length).map fun i =>
    packF64 (m.frequencies.getD i 0) ++ packF32 (m.magnitudes.getD i 0) ++
      packF32 (phases.getD i 0)).flatten)
  -- checksum step: `f.seek(0); data = f.read()` — raises io.UnsupportedOperation
  let data ← freadAll h
  -- unreachable continuation: `hashlib.crc32(data)` would raise AttributeError
  let _ := data
  .error .attributeErrorCrc32

/-! ## CSV parser — `CSVParser` (`parsers/csv_parser.py`)

A CSV file is modelled as its list of lines, each **without** its trailing
newline (`f.readlines()` keeps the terminators; everywhere a line is used
it is either `.strip()`ed or fed to `csv.reader`, which strips the
terminator, so carrying the terminators separately changes nothing; the
reconstructed on-disk content used for delimiter detection re-appends
them). -/

/-- `self.supported_delimiters` (line 24). -/
def supported_delimiters : List Char := [',', ';', '\t', '|']

/-- `self.frequency_keywords` (line 25). -/
def frequency_keywords : List PyStr :=
  ["freq".toList, "frequency".toList, "f".toList, "hz".toList]

/-- `self.magnitude_keywords` (line 26). -/
def magnitude_keywords : List PyStr :=
  ["mag".toList, "magnitude".toList, "amp".toList, "amplitude".toList,
   "db".toList, "gain".toList]

/-- `self.phase_keywords` (line 27). -/
def phase_keywords : List PyStr :=
  ["phase".toList, "ph".toList, "angle".toList, "deg".toList, "degrees".toList]

/-- The on-disk byte stream of a file given as newline-free lines. -/
def fileContent (lines : List PyStr) : PyStr :=
  (lines.map (· ++ ['\n'])).flatten

/-- `detect_delimiter` (lines 29-38): count each candidate delimiter in the
first 1024 characters and take the most frequent; Python's `max` over the
dict keeps the earliest key on ties (insertion order `',' ';' '\t' '|'`). -/
def detect_delimiter (content : PyStr) : Char :=
  let sample := content.take 1024
  supported_delimiters.foldl
    (fun best d => if pyCount sample best < pyCount sample d then d else best) ','

/-- A line that the data-start scan of lines 148-153 skips: stripped text
beginning `#`, `%` or `//`, or blank. -/
def isCommentOrBlank (l : PyStr) : Bool :=
  pyStartsWith (pyStrip l) "#".toList ∨ pyStartsWith (pyStrip l) "%".toList ∨
    pyStartsWith (pyStrip l) "//".toList ∨ (pyStrip l).isEmpty

/-- `data_start`: index of the first non-comment, non-blank line; `0` when
every line is skipped (the loop variable's initial value). -/
def data_start (lines : List PyStr) : ℕ :=
  (lines.findIdx? fun l => ¬ isCommentOrBlank l).getD 0

/-- One row as produced by `csv.reader` from a (terminator-free) line: a
blank line yields the empty row, otherwise the line splits on the
delimiter. -/
def csvRow (delim : Char) (l : PyStr) : List PyStr :=
  if l.isEmpty then [] else pySplit l delim

/-- Extracted metadata (`parse_header_metadata`, lines 40-85), with its
defaults.  `now` stands for `datetime.now().isoformat()`. -/
structure CsvMeta where
  asset_id : PyStr
  manufacturer : PyStr
  model : PyStr
  rating_MVA : ℚ
  test_date : PyStr
  instrument : PyStr
  test_voltage : ℚ
  deriving DecidableEq, Repr

/-- The metadata defaults of lines 42-50. -/
def defaultCsvMeta (now : PyStr) : CsvMeta :=
  ⟨"unknown".toList, "unknown".toList, "unknown".toList, 100, now,
    "unknown".toList, 1000⟩

/-- `float(re.findall(r'\d+', val)[0])`: the first maximal digit run, or
`none` when there is none (the `except: pass` of lines 82-83). -/
def firstDigitRun (s : PyStr) : Option ℚ :=
  let run := (s.dropWhile fun c => ¬ c.isDigit).takeWhile Char.isDigit
  if run.isEmpty then none else some (digitsVal run)

/-- One iteration of the metadata comment scan (lines 53-83): `# key:
value` comments update the metadata through the `elif` priority chain. -/
def metaStep (m : CsvMeta) (line : PyStr) : CsvMeta :=
  let l := pyStrip line
  if pyStartsWith l "#".toList ∨ pyStartsWith l "%".toList ∨
      pyStartsWith l "//".toList then
    if containsChar l ':' then
      match pySplitFirst (l.drop 1) ':' with
      | (_, none) => m
      | (k, some v) =>
        let key := (pyLower (pyStrip k)).map fun c => if c = ' ' then '_' else c
        let val := pyStrip v
        if containsSub key "asset".toList ∨ containsSub key "transformer".toList ∨
            containsSub key "id".toList then
          { m with asset_id := val }
        else if containsSub key "manufacturer".toList ∨ containsSub key "make".toList then
          { m with manufacturer := val }
        else if containsSub key "model".toList then
          { m with model := val }
        else if containsSub key "mva".toList ∨ containsSub key "rating".toList then
          match parseFloat? (pyStrip (pyRemoveAll "MVA".toList val)) with
          | some q => { m with rating_MVA := q }
          | none => m
        else if containsSub key "date".toList then
          { m with test_date := val }
        else if containsSub key "instrument".toList ∨ containsSub key "device".toList then
          { m with instrument := val }
        else if containsSub key "voltage".toList ∧ containsSub key "test".toList then
          match firstDigitRun val with
          | some q => { m with test_voltage := q }
          | none => m
        else m
    else m
  else m

/-- `parse_header_metadata(lines)` (lines 40-85): scan the first 20 lines. -/
def parse_header_metadata (now : PyStr) (lines : List PyStr) : CsvMeta :=
  (lines.take 20).foldl metaStep (defaultCsvMeta now)

/-- The column indices found by `identify_columns`. -/
structure Cols where
  frequency : Option ℕ
  magnitude : Option ℕ
  phase : Option ℕ
  deriving DecidableEq, Repr

/-- `any(keyword in col_lower for keyword in kws)`. -/
def keywordMatch (kws : List PyStr) (cell : PyStr) : Bool :=
  kws.any fun k => containsSub cell k

/-- One header cell of the keyword scan of lines 91-104: the `elif`
priority is frequency → magnitude → phase, and a later match for the same
kind overwrites an earlier one. -/
def identifyStep (cols : Cols) (ic : ℕ × PyStr) : Cols :=
  let cl := pyStrip (pyLower ic.2)
  if keywordMatch frequency_keywords cl then { cols with frequency := some ic.1 }
  else if keywordMatch magnitude_keywords cl then { cols with magnitude := some ic.1 }
  else if keywordMatch phase_keywords cl then { cols with phase := some ic.1 }
  else cols

/-- `identify_columns(header_row)` (lines 87-113): the keyword scan over
the enumerated header cells, then the positional fallback
`col0=frequency, col1=magnitude[, col2=phase]` when no frequency column
was found and the header has at least two cells. -/
def identify_columns (header_row : List PyStr) : Cols :=
  let cols := header_row.enum.foldl identifyStep ⟨none, none, none⟩
  if cols.frequency.isNone ∧ 2 ≤ header_row.length then
    { frequency := some 0, magnitude := some 1,
      phase := if 3 ≤ header_row.length then some 2 else cols.phase }
  else cols

/-- `max(columns.values())` (absent columns contribute nothing; `0` is
neutral for the maximum of indices). -/
def Cols.maxIdx (c : Cols) : ℕ :=
  max (c.frequency.getD 0) (max (c.magnitude.getD 0) (c.phase.getD 0))

/-- `row[i]` as the extraction loop reads it (indices are in range there
thanks to the row-length guard; out-of-range reads yield a junk empty
cell). -/
def cellAt (row : List PyStr) (i : ℕ) : PyStr := row.getD i []

/-- A data row that contributes a (frequency, magnitude) pair in the
extraction loop of lines 174-190: long enough, and both cells parse.  (A
failing *phase* cell is caught only after frequency and magnitude were
appended, so it does not affect this.) -/
def validDataRow (cols : Cols) (row : List PyStr) : Bool :=
  cols.maxIdx < row.length ∧
    (parseFloat? (cellAt row (cols.frequency.getD 0))).isSome ∧
    (parseFloat? (cellAt row (cols.magnitude.getD 0))).isSome

/-- One iteration of the extraction loop of lines 174-190: short rows are
skipped; a `float` failure on frequency or magnitude skips the row; a
`float` failure on phase is caught *after* frequency and magnitude were
appended. -/
def extractStep (cols : Cols) (acc : List ℚ × List ℚ × List ℚ)
    (row : List PyStr) : List ℚ × List ℚ × List ℚ :=
  if row.length ≤ cols.maxIdx then acc
  else
    match parseFloat? (cellAt row (cols.frequency.getD 0)),
        parseFloat? (cellAt row (cols.magnitude.getD 0)) with
    | some f, some mg =>
      match cols.phase with
      | some pj =>
        match parseFloat? (cellAt row pj) with
        | some ph => (acc.1 ++ [f], acc.2.1 ++ [mg], acc.2.2 ++ [ph])
        | none => (acc.1 ++ [f], acc.2.1 ++ [mg], acc.2.2)
      | none => (acc.1 ++ [f], acc.2.1 ++ [mg], acc.2.2)
    | _, _ => acc

/-- The extraction loop of lines 174-190 over `rows[1:]`. -/
def extract_data (cols : Cols) (rows : List (List PyStr)) :
    List ℚ × List ℚ × List ℚ :=
  rows.foldl (extractStep cols) ([], [], [])

/-- The magnitude-unit heuristic of lines 199-202: `linear` when every
value is ≥ 0 and the maximum is < 10 (the list is nonempty here, so
`np.max(ms) < 10` is "every element < 10"). -/
def magnitudesLookLinear (ms : List ℚ) : Bool :=
  ms.all (fun m => 0 ≤ m) ∧ ms.all (fun m => m < 10)

/-- The row list `parse_file` works on (lines 144-157): lines from
`data_start` on, split by the detected delimiter as `csv.reader` does.
Its head is the header row, `rows[1:]` are the data rows. -/
def csvRows (lines : List PyStr) : List (List PyStr) :=
  (lines.drop (data_start lines)).map (csvRow (detect_delimiter (fileContent lines)))

/-- `CSVParser.parse_file` (lines 127-251).  `log10k` stands for the float
evaluation of `np.log10` in the linear→dB conversion
`20*log10(max(value, 1e-12))`; `now` for `datetime.now()`, `stem`,
`filename` and `file_size` for the `Path` attributes of the input file. -/
def csv_parse_file (log10k : ℚ → ℚ) (now stem filename : PyStr) (file_size : ℕ)
    (lines : List PyStr) : Except PyErr CanonicalRecord :=
  if lines.isEmpty then .error .emptyCsvFile
  else
    let meta := parse_header_metadata now lines
    let rows := csvRows lines
    if rows.length < 2 then .error .insufficientRows
    else
      let cols := identify_columns (rows.headD [])
      if cols.frequency.isNone ∨ cols.magnitude.isNone then .error .noColumns
      else
        let fmp := extract_data cols (rows.drop 1)
        let fs := fmp.1
        let ms := fmp.2.1
        let ps := fmp.2.2
        if fs.length < 10 then .error .insufficientData
        else
          let msDb := if magnitudesLookLinear ms then
              ms.map fun m => 20 * log10k (max m ((1 : ℚ) / 10 ^ 12))
            else ms
          .ok
            { asset_metadata :=
                { asset_id := meta.asset_id, manufacturer := meta.manufacturer,
                  model := meta.model, rating_MVA := meta.rating_MVA,
                  winding_config := "unknown".toList, serial := "unknown".toList,
                  year_installed := 2020, voltage_levels := [132, 33] }
              test_info :=
                { test_id := "test_".toList ++ stem ++ "_".toList ++ now,
                  date := meta.test_date, technician := "unknown".toList,
                  instrument := meta.instrument, test_voltage := meta.test_voltage,
                  coupling := "capacitive".toList, ambient_temp := 25 }
              measurement :=
                { frequencies := fs, magnitudes := msDb,
                  phases := if ps.isEmpty then none else some ps,
                  unit := "dB".toList,
                  phase_unit := if ps.isEmpty then none else some "degrees".toList,
                  connection := "H1-H2".toList,
                  resolution := fs.length, freq_start := fs.getD 0 0,
                  freq_end := fs.getD (fs.length - 1) 0 }
              raw_file :=
                { filename := filename, vendor_name := "generic".toList,
                  original_format := "csv".toList, file_size := file_size,
                  parser_version := "1.0".toList } }

/-! ## Normalizer — `FRANormalizer` (`preproc/normalize.py`)

Numerical kernels whose pointwise values no claim depends on are explicit
parameters:
- `log10k` — float `np.log10` on a scalar;
- `gridK i` — the `i`-th value of
  `np.logspace(log10(freq_min), log10(freq_max), target_points)`
  (the construction fixes only the *count* of grid points);
- `cubicMagK cf cm t` — the scipy cubic interpolator of lines 90-96 fitted
  to the cleaned data `cf, cm` (including the log10 transforms of both
  axes) evaluated at target frequency `t`;
- `cubicPhaseK cf cp t` — the phase interpolator of lines 100-109
  (including the degrees→radians, `np.unwrap` and radians→degrees steps);
- `savgolK w p` — `scipy.signal.savgol_filter(·, w, p)` with the fallback
  of lines 165-168 that returns its input on failure;
- `waveletK` — `apply_wavelet_denoising` (lines 172-210; identity when
  PyWavelets is unavailable or fails);
- `cubic_ok` — whether the `try` block of lines 84-110 succeeds; on
  failure, lines 111-131 fall back to **linear interpolation in linear
  frequency space with `fill_value='extrapolate'`**, modelled concretely
  by `interpLinear` below. -/

/-- Normalizer configuration (`__init__`, lines 20-37). -/
structure NormalizerConfig where
  target_points : ℕ
  freq_min : ℚ
  freq_max : ℚ
  mag_min : ℚ
  mag_max : ℚ
  deriving DecidableEq, Repr

/-- The constructor defaults: 4096 points, 20 kHz-12 MHz, −60..60 dB. -/
def defaultNormalizerConfig : NormalizerConfig :=
  ⟨4096, 20000, 12000000, -60, 60⟩

/-- The line through `p` and `q` evaluated at `t`. -/
def lerp (p q : ℚ × ℚ) (t : ℚ) : ℚ :=
  p.2 + (q.2 - p.2) * (t - p.1) / (q.1 - p.1)

/-- `scipy.interpolate.interp1d(xs, ys, kind='linear', bounds_error=False,
fill_value='extrapolate')` evaluated at `t`, for the strictly increasing
abscissae the resampler produces: the segment containing `t` decides the
value, and a `t` outside the data range follows the line through the first
(resp. last) two points.  scipy rejects fewer than two points; the `[]`
and one-point cases are junk values for totality and are never reached
(the caller guarantees at least 10 points). -/
def interpLinear : List (ℚ × ℚ) → ℚ → ℚ
  | [], _ => 0
  | [p], _ => p.2
  | [p, q], t => lerp p q t
  | p :: q :: rest, t => if t ≤ q.1 then lerp p q t else interpLinear (q :: rest) t

/-- The last two nodes of a two-or-more-point list — the segment whose
line `interpLinear` follows beyond the right end of the data. -/
def lastSegment (p q : ℚ × ℚ) : List (ℚ × ℚ) → (ℚ × ℚ) × (ℚ × ℚ)
  | [] => (p, q)
  | r :: rest => lastSegment q r rest

/-- Lines 60-64: sort the points by frequency.  (`np.argsort` is an
unstable quicksort; this embedding uses a stable sort.  The orders agree
whenever frequencies are pairwise distinct, and ties are immediately
collapsed by deduplication — no theorem below depends on which duplicate's
magnitude survives.) -/
def sortByFreq (l : List (ℚ × ℚ × ℚ)) : List (ℚ × ℚ × ℚ) :=
  l.mergeSort fun a b => a.1 ≤ b.1

/-- Lines 66-71, `np.unique(frequencies, return_index=True)`: on the
sorted array, keep the first point of each equal-frequency run. -/
def dedupAdjacent : List (ℚ × ℚ × ℚ) → List (ℚ × ℚ × ℚ)
  | [] => []
  | [a] => [a]
  | a :: b :: rest =>
    if b.1 = a.1 then dedupAdjacent (a :: rest) else a :: dedupAdjacent (b :: rest)
termination_by l => l.length
decreasing_by all_goals simp_arith

/-- Lines 73-78: clip to the target frequency range. -/
def clipToRange (cfg : NormalizerConfig) (l : List (ℚ × ℚ × ℚ)) : List (ℚ × ℚ × ℚ) :=
  l.filter fun x => cfg.freq_min ≤ x.1 ∧ x.1 ≤ cfg.freq_max

/-- The cleaned input of `resample_to_common_grid` (lines 59-78): sorted,
deduplicated, clipped triples of (frequency, magnitude, phase).  When the
record has no phases the caller passes a dummy zero phase column, which no
frequency/magnitude result depends on. -/
def cleanInput (cfg : NormalizerConfig) (fs ms ps : List ℚ) : List (ℚ × ℚ × ℚ) :=
  clipToRange cfg (dedupAdjacent (sortByFreq (fs.zip (ms.zip ps))))

section Normalizer

variable (log10k : ℚ → ℚ) (gridK : ℕ → ℚ)
variable (cubicMagK cubicPhaseK : List ℚ → List ℚ → ℚ → ℚ)
variable (savgolK : ℕ → ℕ → List ℚ → List ℚ) (waveletK : List ℚ → List ℚ)

/-- `resample_to_common_grid` (lines 39-133). -/
def resample_to_common_grid (cubic_ok : Bool) (cfg : NormalizerConfig)
    (fs ms : List ℚ) (ps : Option (List ℚ)) :
    Except PyErr (List ℚ × List ℚ × Option (List ℚ)) :=
  let grid := (List.range cfg.target_points).map gridK
  let cleaned := cleanInput cfg fs ms (ps.getD (List.replicate fs.length 0))
  if cleaned.length < 10 then .error .insufficientData
  else
    let cf := cleaned.map (·.1)
    let cm := cleaned.map fun x => x.2.1
    let cp := cleaned.map fun x => x.2.2
    if cubic_ok then
      .ok (grid, grid.map (cubicMagK cf cm), ps.map fun _ => grid.map (cubicPhaseK cf cp))
    else
      .ok (grid, grid.map (interpLinear (cf.zip cm)),
        ps.map fun _ => grid.map (interpLinear (cf.zip cp)))

/-- The window-size computation of `apply_savgol_filter` (lines 146-150):
`min(51, n)`, decremented if even, floored at 5. -/
def savgolWindow (n : ℕ) : ℕ :=
  let w := min 51 n
  max (if w % 2 = 0 then w - 1 else w) 5

/-- `polyorder = min(3, window_size - 1)` (line 152). -/
def savgolPolyorder (w : ℕ) : ℕ := min 3 (w - 1)

/-- `normalize_magnitude` on one value (lines 212-227): `np.clip` to
`[mag_min, mag_max]`, then the linear map onto `[0, 1]`. -/
def normalize_magnitude (cfg : NormalizerConfig) (m : ℚ) : ℚ :=
  (min (max m cfg.mag_min) cfg.mag_max - cfg.mag_min) / (cfg.mag_max - cfg.mag_min)

/-- The wrap of `normalize_phase` (line 239),
`np.angle(np.exp(1j*np.radians(p)), deg=True)`: the representative of `p`
in `[-180, 180]`.  (At odd multiples of 180 the float evaluation picks a
sign by rounding; either choice satisfies every bound proved below.) -/
def wrapDeg (p : ℚ) : ℚ := p - 360 * round (p / 360)

/-- `normalize_phase` on one value (lines 229-244): wrap, then divide by
180. -/
def normalize_phase (p : ℚ) : ℚ := wrapDeg p / 180

/-- The `processing_metadata` block attached by `process_fra_data`
(lines 307-331). -/
structure ProcMeta where
  preprocessing_steps : List PyStr
  target_points : ℕ
  frequency_range_hz : ℚ × ℚ
  magnitude_range_db : ℚ × ℚ
  frequencies_log10 : List ℚ
  magnitudes_normalized : List ℚ
  phases_normalized : Option (List ℚ)
  deriving DecidableEq, Repr

/-- What `process_fra_data` leaves behind.  `processed_data =
canonical_data.copy()` (line 298) is a **shallow** dict copy: the
`'measurement'` value of the copy is the *same dict object* as the
caller's, so the item assignments of lines 299-305 update the caller's
record as well, while the new top-level key `'processing_metadata'`
(line 309) appears only on the copy.  `callerRecord` is the caller's
record as observable after the call returns. -/
structure ProcessOutcome where
  result : CanonicalRecord
  processing_metadata : ProcMeta
  callerRecord : CanonicalRecord
  deriving DecidableEq, Repr

/-- Lines 264-267: `phases = np.array(measurement.get('phases', []))`; an
empty array becomes `None`. -/
def prepPhases (m : Measurement) : Option (List ℚ) :=
  match m.phases with
  | some l => if l.isEmpty then none else some l
  | none => none

/-- Lines 269-274: convert magnitudes to dB when the unit says linear
(unknown units pass through with a warning). -/
def prepMags (log10k : ℚ → ℚ) (m : Measurement) : List ℚ :=
  if pyLower m.unit ≠ "db".toList then
    if pyLower m.unit = "linear".toList ∨ pyLower m.unit = "magnitude".toList then
      m.magnitudes.map fun x => 20 * log10k (max x ((1 : ℚ) / 10 ^ 12))
    else m.magnitudes
  else m.magnitudes

/-- `process_fra_data` (lines 246-333). -/
def process_fra_data (cubic_ok : Bool) (cfg : NormalizerConfig)
    (apply_filtering apply_wavelet : Bool) (r : CanonicalRecord) :
    Except PyErr ProcessOutcome :=
  let meas := r.measurement
  let ps := prepPhases meas
  let ms0 := prepMags log10k meas
  match resample_to_common_grid gridK cubicMagK cubicPhaseK cubic_ok cfg
      meas.frequencies ms0 ps with
  | .error e => .error e
  | .ok (grid, rmag, rphase) =>
    -- step 2: Savitzky-Golay filtering (window from the magnitude length)
    let w := savgolWindow grid.length
    let po := savgolPolyorder w
    let rmag1 := if apply_filtering then savgolK w po rmag else rmag
    let rphase1 := if apply_filtering then rphase.map (savgolK w po) else rphase
    -- step 3: optional wavelet denoising (magnitude only)
    let rmag2 := if apply_wavelet then waveletK rmag1 else rmag1
    -- step 4: normalization (kept separately in the metadata block)
    let nmag := rmag2.map (normalize_magnitude cfg)
    let nphase := rphase1.map fun l => l.map normalize_phase
    -- lines 298-305: updates through the shallow copy hit the shared dict
    let newMeas : Measurement :=
      { meas with
        frequencies := grid, magnitudes := rmag2, unit := "dB".toList,
        phases := match rphase1 with | some l => some l | none => meas.phases,
        phase_unit := match rphase1 with
          | some _ => some "degrees".toList
          | none => meas.phase_unit }
    .ok
      { result := { r with measurement := newMeas }
        processing_metadata :=
          { preprocessing_steps :=
              ["resampling_to_common_grid".toList] ++
                (if apply_filtering then ["savitzky_golay_filtering".toList] else []) ++
                (if apply_wavelet then ["wavelet_denoising".toList] else []) ++
                ["normalization".toList]
            target_points := cfg.target_points
            frequency_range_hz := (cfg.freq_min, cfg.freq_max)
            magnitude_range_db := (cfg.mag_min, cfg.mag_max)
            frequencies_log10 := grid.map log10k
            magnitudes_normalized := nmag
            phases_normalized := nphase }
        callerRecord := { r with measurement := newMeas } }

end Normalizer

/-! ## Concrete sample records and inputs used by the theorems -/

/-- A plain `asset_metadata` section. -/
def sampleAsset : AssetMetadata :=
  ⟨"TR1".toList, "ABB".toList, "M1".toList, 100, "Dyn11".toList,
    "SN1".toList, 2020, [132, 33]⟩

/-- A plain `test_info` section. -/
def sampleTest : TestInfo :=
  ⟨"T1".toList, "2024-01-15".toList, "tech".toList, "instr".toList, 1000,
    "capacitive".toList, 25⟩

/-- A plain `raw_file` section. -/
def sampleRaw : RawFileInfo :=
  ⟨"f.csv".toList, "generic".toList, "csv".toList, 100, "1.0".toList⟩

/-- A 10-point record whose frequency list is **not** sorted (30 kHz
before 20 kHz) but which has matching array lengths. -/
def unsortedRecord : CanonicalRecord :=
  { asset_metadata := sampleAsset, test_info := sampleTest,
    measurement :=
      { frequencies := [30000, 20000, 40000, 50000, 60000, 70000, 80000,
          90000, 100000, 110000],
        magnitudes := [1, 2, 3, 4, 5, 6, 7, 8, 9, 10],
        phases := none, unit := "dB".toList, phase_unit := none,
        connection := "H1-H2".toList, resolution := 10,
        freq_start := 30000, freq_end := 110000 },
    raw_file := sampleRaw }

/-! ## C3 — what the Canonical Validator actually guarantees

`validate_canonical_data` checks the section keys, the array lengths and
the ≥ 10 point count, but contains **no** check that `frequencies` is
strictly increasing or duplicate-free; a record with an unsorted frequency
list passes. -/

/-- C3 counterexample: `unsortedRecord` is accepted by
`validate_canonical_data` although its frequency list is not strictly
increasing, refuting the claim that every accepted record has a strictly
increasing frequency list. -/
theorem c3_counterexample :
    validate_canonical_data unsortedRecord = true ∧
      strictlyIncreasing unsortedRecord.measurement.frequencies = false := by
  decide

/-- C3 (amended): every record accepted by `validate_canonical_data` has
`len(frequencies) == len(magnitudes)` (and `== len(phases)` when phases
are present) and at least 10 points; the validator does **not** check that
frequencies are strictly increasing (sorting and deduplication happen
later, inside the Normalizer). -/
theorem c3_validator_shape (r : CanonicalRecord)
    (h : validate_canonical_data r = true) :
    r.measurement.frequencies.length = r.measurement.magnitudes.length ∧
      10 ≤ r.measurement.frequencies.length ∧
      ∀ ps, r.measurement.phases = some ps →
        ps.length = r.measurement.frequencies.length := by
  unfold validate_canonical_data at h
  simp only [Bool.and_eq_true, beq_iff_eq, decide_eq_true_eq] at h
  refine ⟨h.1.1, h.1.2, fun ps hps => ?_⟩
  have h3 := h.2
  rw [hps] at h3
  simpa using h3

/-- C3 witness: the shape guarantees evaluated on a concrete accepted
record. -/
theorem c3_validator_shape_witness :
    validate_canonical_data unsortedRecord = true ∧
      (unsortedRecord.measurement.frequencies.length =
          unsortedRecord.measurement.magnitudes.length ∧
        10 ≤ unsortedRecord.measurement.frequencies.length ∧
        ∀ ps, unsortedRecord.measurement.phases = some ps →
          ps.length = unsortedRecord.measurement.frequencies.length) :=
  ⟨by decide, c3_validator_shape unsortedRecord (by decide)⟩

/-! ## C5 — behaviour when every detection heuristic is exhausted

`detect_file_format` never raises an "Unsupported" error: when all
heuristics fail it *returns* the `'binary'` tag (line 113).  The routing
switch of `parse_file` then hits its `else` arm (line 244) and raises
`ValueError("Unsupported file format: binary")` — it does **not** call
`self.binary_parser.read_file`, which is reached only for the four vendor
tags. -/

/-- C5 counterexample: for the extensionless three-byte file `b"ABC"`
every heuristic is exhausted, yet the detector returns the `'binary'` tag
instead of raising, and the caller's routing raises the Unsupported error
without attempting binary parsing — refuting both the "caller then
attempts binary parsing" and the "detector raises Unsupported" parts of
the claim. -/
theorem c5_counterexample :
    detect_file_format jsonLoadsUnreached true [] (bytesOfAscii "ABC") =
        .ok .binary ∧
      parse_route .binary = .unsupportedError ∧
      parse_route .binary ≠ .binaryParse := by
  decide

/-- C5 (amended): the detector raises NotFound when the path does not
exist; when the extension table, the signature scan and all three
text-format heuristics fail it *returns* the unknown-binary tag rather
than raising, and the caller then raises Unsupported immediately — binary
parsing is attempted exactly for the four vendor tags, never for the
unknown-binary tag. -/
theorem c5_exhausted_heuristics (jsonOk : PyStr → Bool) (ext : PyStr)
    (content : List Nat)
    (hext : extension_map.find? (fun p => p.1 == pyLower ext) = none)
    (hsig : binary_signatures.find?
      (fun p => containsBytes (content.take 1024) p.1) = none)
    (hxml : ¬(pyStartsWith (pyStrip (decodeUtf8Ignore (content.take 1024)))
        "<?xml".toList ∨
      containsChar ((decodeUtf8Ignore (content.take 1024)).take 100) '<'))
    (hjson : ¬(pyStartsWith (pyStrip (decodeUtf8Ignore (content.take 1024)))
        ['\x7b'] ∨
      pyStartsWith (pyStrip (decodeUtf8Ignore (content.take 1024))) ['[']))
    (hcsv : ¬ csv_patterns.any fun d =>
      containsChar (decodeUtf8Ignore (content.take 1024)) d ∧
        5 < pyCount (decodeUtf8Ignore (content.take 1024)) d)
    (hdig : ¬((decodeUtf8Ignore (content.take 1024)).any Char.isDigit ∧
      containsChar (decodeUtf8Ignore (content.take 1024)) '\n')) :
    detect_file_format jsonOk false ext content = .error .fileNotFound ∧
      detect_file_format jsonOk true ext content = .ok .binary ∧
      parse_route .binary = .unsupportedError ∧
      (∀ f, parse_route f = .binaryParse ↔
        f = .omicron ∨ f = .doble ∨ f = .megger ∨ f = .newtons4th) := by
  refine ⟨by simp [detect_file_format], ?_, by decide,
    by intro f; cases f <;> simp [parse_route]⟩
  unfold detect_file_format
  simp only [hext, hsig]
  rw [if_neg (by simp)]
  rw [if_neg hxml, if_neg (fun hc => hjson hc.1), if_neg hcsv, if_neg hdig]

/-- C5 witness: the amended behaviour evaluated on the concrete
extensionless file `b"ABC"`. -/
theorem c5_exhausted_heuristics_witness :
    detect_file_format jsonLoadsUnreached false [] (bytesOfAscii "ABC") =
        .error .fileNotFound ∧
      detect_file_format jsonLoadsUnreached true [] (bytesOfAscii "ABC") =
        .ok .binary ∧
      parse_route .binary = .unsupportedError ∧
      (∀ f, parse_route f = .binaryParse ↔
        f = .omicron ∨ f = .doble ∨ f = .megger ∨ f = .newtons4th) :=
  c5_exhausted_heuristics jsonLoadsUnreached [] (bytesOfAscii "ABC")
    (by decide) (by decide) (by decide) (by decide) (by decide) (by decide)

/-! ## C8 — extension and signature routing

The `.frx` extension is looked up before any content is read, so it always
routes to Omicron.  The signature scan of lines 74-77, however, iterates
the signature dict in insertion order — `OMICRON_FRX` first — so an
extensionless file whose first kilobyte contains *both* `OMICRON_FRX` and
`DOBLE_M4000` routes to Omicron even though it contains the Doble
signature. -/

/-- C8 counterexample: an extensionless file whose first 1024 bytes
contain the substring `DOBLE_M4000` (alongside `OMICRON_FRX`) is routed to
the Omicron codec, not the Doble codec — refuting the unconditional
"routes to Doble" half of the claim. -/
theorem c8_counterexample :
    containsBytes ((bytesOfAscii "OMICRON_FRX DOBLE_M4000").take 1024)
        (bytesOfAscii "DOBLE_M4000") = true ∧
      detect_file_format jsonLoadsUnreached true []
          (bytesOfAscii "OMICRON_FRX DOBLE_M4000") = .ok .omicron ∧
      FFormat.omicron ≠ FFormat.doble := by
  decide

/-- C8 (amended): a file with extension `.frx` always routes to the
Omicron codec regardless of content; an extensionless file whose first
1024 bytes contain `DOBLE_M4000` routes to the Doble codec **provided**
the earlier-checked `OMICRON_FRX` signature does not also occur in that
window (the signature dict is scanned in insertion order, Omicron first;
the Megger and Newtons4th signatures are checked after Doble and cannot
pre-empt it). -/
theorem c8_signature_routing (jsonOk : PyStr → Bool) (content : List Nat)
    (hdbl : containsBytes (content.take 1024) (bytesOfAscii "DOBLE_M4000") = true)
    (homi : containsBytes (content.take 1024) (bytesOfAscii "OMICRON_FRX") = false) :
    detect_file_format jsonOk true ".frx".toList content = .ok .omicron ∧
      detect_file_format jsonOk true [] content = .ok .doble := by
  constructor
  · simp [detect_file_format, extension_map, pyLower]
  · unfold detect_file_format
    have hext : extension_map.find? (fun p => p.1 == pyLower ([] : PyStr)) = none := by
      decide
    have hsig : binary_signatures.find?
        (fun p => containsBytes (content.take 1024) p.1) =
        some (bytesOfAscii "DOBLE_M4000", .doble) := by
      unfold binary_signatures
      rw [List.find?_cons_of_neg _ (by simp [homi]),
        List.find?_cons_of_pos _ (by simp [hdbl])]
    simp only [hext, hsig]
    rfl

/-- C8 witness: the amended routing evaluated on a `.frx` file and on an
extensionless file containing only the Doble signature. -/
theorem c8_signature_routing_witness :
    containsBytes ((bytesOfAscii "xxDOBLE_M4000yy").take 1024)
        (bytesOfAscii "DOBLE_M4000") = true ∧
      containsBytes ((bytesOfAscii "xxDOBLE_M4000yy").take 1024)
        (bytesOfAscii "OMICRON_FRX") = false ∧
      detect_file_format jsonLoadsUnreached true ".frx".toList
        (bytesOfAscii "xxDOBLE_M4000yy") = .ok .omicron ∧
      detect_file_format jsonLoadsUnreached true []
        (bytesOfAscii "xxDOBLE_M4000yy") = .ok .doble :=
  ⟨by decide, by decide,
    (c8_signature_routing jsonLoadsUnreached (bytesOfAscii "xxDOBLE_M4000yy")
      (by decide) (by decide)).1,
    (c8_signature_routing jsonLoadsUnreached (bytesOfAscii "xxDOBLE_M4000yy")
      (by decide) (by decide)).2⟩

/-! ## C9 — the XML parallel-array fallback threshold

The acceptance test of line 158 is `len(freq_values) == len(mag_values)
and len(freq_values) > 10` — *strictly more than* 10.  With exactly 10
equal-length values the arrays are never adopted, the data stays empty,
and the final `< 10` guard of lines 163-164 raises — so "at least 10
points recovered" does **not** suffice. -/

/-- Frequency text for the C9 counterexample: exactly 10 comma-separated
values with no other candidate delimiter present. -/
def c9FreqText : PyStr := "1,2,3,4,5,6,7,8,9,10".toList

/-- Magnitude text for the C9 counterexample: 10 values as well. -/
def c9MagText : PyStr := "5,5,5,5,5,5,5,5,5,5".toList

/-- C9 counterexample: the fallback finds equal-length frequency and
magnitude arrays of exactly 10 values splittable on `','`, yet parsing
fails with the `MalformedRecord`-class error — refuting "parsing succeeds
whenever at least 10 frequency points are recovered". -/
theorem c9_counterexample :
    parseTokens ',' c9FreqText = .ok [1, 2, 3, 4, 5, 6, 7, 8, 9, 10] ∧
      parseTokens ',' c9MagText = .ok [5, 5, 5, 5, 5, 5, 5, 5, 5, 5] ∧
      containsChar c9FreqText ',' = true ∧
      parse_frequency_data_arrays c9FreqText c9MagText =
        .error .malformedXml := by
  with_unfolding_all decide

/-- C9 (amended): in the parallel-array fallback, when the frequency text
contains `','` (the first candidate delimiter) and both texts split and
parse into equal-length lists, parsing succeeds exactly when **strictly
more than 10** (i.e. at least 11) points are recovered; with 10 or fewer
points (and no later delimiter present in the frequency text) the arrays
are discarded and parsing fails with the `MalformedRecord`-class error. -/
theorem c9_array_fallback_threshold :
    (∀ ft mt fv mv, containsChar ft ',' = true →
      parseTokens ',' ft = .ok fv → parseTokens ',' mt = .ok mv →
      fv.length = mv.length → 11 ≤ fv.length →
      parse_frequency_data_arrays ft mt = .ok (fv, mv)) ∧
    (∀ ft mt fv mv, containsChar ft ',' = true →
      containsChar ft ';' = false → containsChar ft ' ' = false →
      containsChar ft '\t' = false → containsChar ft '\n' = false →
      parseTokens ',' ft = .ok fv → parseTokens ',' mt = .ok mv →
      fv.length = mv.length → fv.length ≤ 10 →
      parse_frequency_data_arrays ft mt = .error .malformedXml) := by
  constructor
  · intro ft mt fv mv hc hf hm hlen h11
    have hcond : fv.length = mv.length ∧ 10 < fv.length := ⟨hlen, by omega⟩
    simp only [parse_frequency_data_arrays, xmlSeparators, xmlArrayLoop, hc,
      if_true, hf, hm, if_pos hcond]
    rw [if_neg (by omega)]
  · intro ft mt fv mv hc h2 h3 h4 h5 hf hm hlen hle
    have hcond : ¬(fv.length = mv.length ∧ 10 < fv.length) :=
      fun hcc => absurd hcc.2 (by omega)
    simp only [parse_frequency_data_arrays, xmlSeparators, xmlArrayLoop, hc,
      if_true, hf, hm, if_neg hcond, h2, h3, h4, h5, Bool.false_eq_true,
      if_false, List.length_nil]
    rfl

/-- C9 witness: the amended threshold evaluated concretely — 12
comma-separated points succeed, 9 fail. -/
theorem c9_array_fallback_threshold_witness :
    parse_frequency_data_arrays "1,2,3,4,5,6,7,8,9,10,11,12".toList
        "0,0,0,0,0,0,0,0,0,0,0,0".toList =
      .ok ([1, 2, 3, 4, 5, 6, 7, 8, 9, 10, 11, 12],
        [0, 0, 0, 0, 0, 0, 0, 0, 0, 0, 0, 0]) ∧
    parse_frequency_data_arrays "1,2,3,4,5,6,7,8,9".toList
        "0,0,0,0,0,0,0,0,0".toList = .error .malformedXml :=
  ⟨c9_array_fallback_threshold.1 "1,2,3,4,5,6,7,8,9,10,11,12".toList
      "0,0,0,0,0,0,0,0,0,0,0,0".toList
      [1, 2, 3, 4, 5, 6, 7, 8, 9, 10, 11, 12]
      [0, 0, 0, 0, 0, 0, 0, 0, 0, 0, 0, 0]
      (by decide) (by with_unfolding_all decide) (by with_unfolding_all decide)
      (by decide) (by decide),
    c9_array_fallback_threshold.2 "1,2,3,4,5,6,7,8,9".toList
      "0,0,0,0,0,0,0,0,0".toList
      [1, 2, 3, 4, 5, 6, 7, 8, 9] [0, 0, 0, 0, 0, 0, 0, 0, 0]
      (by decide) (by decide) (by decide) (by decide) (by decide)
      (by with_unfolding_all decide) (by with_unfolding_all decide)
      (by decide) (by decide)⟩

/-! ## C1 — the Omicron round trip never starts

`write_omicron_frx` opens its output with `open(output_path, 'wb')` and,
for the trailing checksum, executes `f.seek(0); data = f.read()` (lines
93-94).  A `'wb'` handle is write-only, so `f.read()` raises
`io.UnsupportedOperation: read` — on *every* record, including the
synthetic 9-point `TR_TEST_001` record of the repository's own round-trip
test (`test_proprietary_formats`, which asserts exactly the claimed
decode-after-encode equalities).  `read_omicron_frx(path)` after
`write_omicron_frx(record, path)` therefore never succeeds.  (Even with a
readable handle, the next expression `hashlib.crc32(data)` would raise
`AttributeError` — `hashlib` has no `crc32`.) -/

/-- The synthetic test record of `test_proprietary_formats` (lines
612-650): `asset_id = "TR_TEST_001"`, 9 points spanning 20 kHz-10 MHz. -/
def omicronTestRecord : CanonicalRecord :=
  { asset_metadata :=
      ⟨"TR_TEST_001".toList, "Test Manufacturer".toList,
        "Test Model 500MVA".toList, 500, "Dyn11".toList, "SN123456".toList,
        2022, [400, 132]⟩,
    test_info :=
      ⟨"TEST_20240115_001".toList, "2024-01-15T14:30:00Z".toList,
        "John Smith".toList, "Test Analyzer".toList, 1200,
        "capacitive".toList, 23.5⟩,
    measurement :=
      { frequencies := [20000, 50000, 100000, 200000, 500000, 1000000,
          2000000, 5000000, 10000000],
        magnitudes := [45.2, 42.1, 38.9, 34.2, 28.1, 20.8, 12.1, 2.1, -8.9],
        phases := some [5.1, 3.2, 1.2, -2.1, -7.8, -18.5, -38.9, -78.5, -118.2],
        unit := "dB".toList, phase_unit := none, connection := "H1-H2".toList,
        resolution := 9, freq_start := 20000, freq_end := 10000000 },
    raw_file :=
      ⟨"test.bin".toList, "generic".toList, "binary".toList, 0, "1.0".toList⟩ }

/-- C1: `write_omicron_frx` raises `io.UnsupportedOperation` for every
float encoding and every record — in particular for the synthetic
`TR_TEST_001` record with 9 points — because its checksum step reads from
the write-only `'wb'` handle; the write never completes, so the claimed
write-then-read round trip cannot succeed. -/
theorem c1_write_omicron_always_raises :
    (∀ packF32 packF64 r,
      write_omicron_frx packF32 packF64 r = .error .unsupportedOperationRead) ∧
    write_omicron_frx (fun _ => [0, 0, 0, 0]) (fun _ => [0, 0, 0, 0, 0, 0, 0, 0])
      omicronTestRecord = .error .unsupportedOperationRead :=
  ⟨fun _ _ _ => rfl, rfl⟩

/-! ## C4 — the linear fallback extrapolates

The `except` branch of `resample_to_common_grid` (lines 111-131) builds
its linear interpolators with `bounds_error=False, fill_value='extrapolate'`
— the same extrapolating fill as the cubic attempt.  A target grid point
outside the cleaned input's frequency range therefore receives a value on
the line through the nearest two data points, not a non-extrapolated
value.  (Target points outside the input range are routine: the target
grid always spans the full 20 kHz-12 MHz window while the input may cover
only part of it.) -/

/-- Ten input frequencies spanning only 100 kHz-1 MHz — all inside the
default clip window, but far from its 12 MHz upper edge. -/
def c4Freqs : List ℚ :=
  [100000, 200000, 300000, 400000, 500000, 600000, 700000, 800000, 900000,
    1000000]

/-- Matching magnitudes 0, 10, …, 90 dB. -/
def c4Mags : List ℚ := [0, 10, 20, 30, 40, 50, 60, 70, 80, 90]

/-- A stand-in for the target-grid kernel whose first value is the
12 MHz top of the default grid — a grid point outside the input range. -/
def c4GridK : ℕ → ℚ := fun _ => 12000000

/-- C4 counterexample: with cubic interpolation failing
(`cubic_ok = false`), the resampler's fallback assigns the 12 MHz target
grid point — which lies above every input frequency — the value 1190 dB,
on the line through the last two input points and strictly beyond every
input magnitude (all ≤ 90).  A linear interpolation *without*
extrapolation cannot produce a value outside the input data's range, so
the fallback does extrapolate. -/
theorem c4_counterexample :
    (∀ x ∈ c4Freqs, 20000 ≤ x ∧ x ≤ 12000000) ∧
      (∀ x ∈ c4Freqs, x < 12000000) ∧
      (match resample_to_common_grid c4GridK (fun _ _ _ => 0) (fun _ _ _ => 0)
          false defaultNormalizerConfig c4Freqs c4Mags none with
        | .ok (_, m, _) => m.getD 0 0
        | .error _ => 0) = 1190 ∧
      (∀ y ∈ c4Mags, y ≤ 90) ∧ ¬((1190 : ℚ) ≤ 90) := by
  set_option maxRecDepth 100000 in with_unfolding_all decide

/-- C4 (amended): on any interpolation failure the fallback performs
linear interpolation in linear-frequency space **with** extrapolation
(`fill_value='extrapolate'`): a target strictly above every input
frequency receives the value of the line through the *last two* points,
and a target at or below the second abscissa the value of the line
through the *first two* points — which extends beyond the data range on
both sides instead of refusing to extrapolate. -/
theorem c4_fallback_extrapolation_rule :
    (∀ p q rest t, (∀ r ∈ p :: q :: rest, r.1 < t) →
      interpLinear (p :: q :: rest) t =
        lerp (lastSegment p q rest).1 (lastSegment p q rest).2 t) ∧
    (∀ p q rest t, t ≤ q.1 → interpLinear (p :: q :: rest) t = lerp p q t) := by
  constructor
  · intro p q rest
    induction rest generalizing p q with
    | nil => intro t _; rfl
    | cons r rs ih =>
      intro t hall
      have hq : q.1 < t := hall q (by simp)
      have hne : ¬ t ≤ q.1 := fun hc => absurd hq (not_lt.mpr hc)
      rw [show interpLinear (p :: q :: r :: rs) t =
          if t ≤ q.1 then lerp p q t else interpLinear (q :: r :: rs) t from rfl,
        if_neg hne]
      exact ih q r t fun x hx => hall x (List.mem_cons_of_mem p hx)
  · intro p q rest t ht
    cases rest with
    | nil => rfl
    | cons r rs =>
      rw [show interpLinear (p :: q :: r :: rs) t =
          if t ≤ q.1 then lerp p q t else interpLinear (q :: r :: rs) t from rfl,
        if_pos ht]

/-- C4 witness: the extrapolation rule evaluated on three concrete points
— at `t = 5` (above the whole range) the value follows the last segment,
at `t = 2` the first segment. -/
theorem c4_fallback_extrapolation_rule_witness :
    ((∀ r ∈ [((1 : ℚ), (0 : ℚ)), (2, 10), (3, 30)], r.1 < 5) ∧
      interpLinear [((1 : ℚ), (0 : ℚ)), (2, 10), (3, 30)] 5 =
        lerp (2, 10) (3, 30) 5) ∧
    interpLinear [((1 : ℚ), (0 : ℚ)), (2, 10), (3, 30)] 2 = lerp (1, 0) (2, 10) 2 :=
  ⟨⟨by decide, c4_fallback_extrapolation_rule.1 (1, 0) (2, 10) [(3, 30)] 5
      (by decide)⟩,
    c4_fallback_extrapolation_rule.2 (1, 0) (2, 10) [(3, 30)] 2 (by decide)⟩

/-! ## C7 / C10 — CSV row accounting

Helper lemmas: the extraction loop contributes exactly one frequency per
valid data row. -/

/-- One extraction step grows the frequency list by one exactly on valid
rows. -/
theorem extractStep_fst_length (cols : Cols) (acc : List ℚ × List ℚ × List ℚ)
    (row : List PyStr) :
    (extractStep cols acc row).1.length =
      acc.1.length + (if validDataRow cols row then 1 else 0) := by
  unfold extractStep validDataRow
  by_cases h1 : row.length ≤ cols.maxIdx
  · rw [if_pos h1, if_neg (by simp [Nat.not_lt.mpr h1])]
    omega
  · rw [if_neg h1]
    cases hf : parseFloat? (cellAt row (cols.frequency.getD 0)) with
    | none => simp
    | some f =>
      cases hm : parseFloat? (cellAt row (cols.magnitude.getD 0)) with
      | none => simp
      | some mg =>
        cases hp : cols.phase with
        | none => simp [Nat.lt_of_not_le h1]
        | some pj =>
          cases hph : parseFloat? (cellAt row pj) with
          | none => simp [hph, Nat.lt_of_not_le h1]
          | some ph => simp [hph, Nat.lt_of_not_le h1]

/-- The extraction fold counts valid rows. -/
theorem extract_foldl_length (cols : Cols) :
    ∀ (rows : List (List PyStr)) (acc : List ℚ × List ℚ × List ℚ),
      (rows.foldl (extractStep cols) acc).1.length =
        acc.1.length + rows.countP (validDataRow cols) := by
  intro rows
  induction rows with
  | nil => intro acc; simp
  | cons row rest ih =>
    intro acc
    rw [List.foldl_cons, ih, List.countP_cons]
    have := extractStep_fst_length cols acc row
    by_cases hv : validDataRow cols row <;> simp [hv] at this ⊢ <;> omega

/-- `extract_data` recovers exactly one frequency per valid data row. -/
theorem extract_data_length (cols : Cols) (rows : List (List PyStr)) :
    (extract_data cols rows).1.length = rows.countP (validDataRow cols) := by
  unfold extract_data
  rw [extract_foldl_length]
  simp

/-- C7: with a recognizable header row (frequency and magnitude columns
identified), a CSV whose data rows contain exactly 9 valid (numerically
parseable) rows fails with the `InsufficientData` error, and one with
exactly 10 valid rows parses successfully with 10 points; rows that fail
numeric parsing only reduce the count — they never abort the parse. -/
theorem c7_csv_ten_row_boundary :
    (∀ k now stem fn fsz (lines : List PyStr),
      lines ≠ [] →
      (identify_columns ((csvRows lines).headD [])).frequency.isSome = true →
      (identify_columns ((csvRows lines).headD [])).magnitude.isSome = true →
      ((csvRows lines).drop 1).countP
          (validDataRow (identify_columns ((csvRows lines).headD []))) = 9 →
      csv_parse_file k now stem fn fsz lines = .error .insufficientData) ∧
    (∀ k now stem fn fsz (lines : List PyStr),
      lines ≠ [] →
      (identify_columns ((csvRows lines).headD [])).frequency.isSome = true →
      (identify_columns ((csvRows lines).headD [])).magnitude.isSome = true →
      ((csvRows lines).drop 1).countP
          (validDataRow (identify_columns ((csvRows lines).headD []))) = 10 →
      ∃ r, csv_parse_file k now stem fn fsz lines = .ok r ∧
        r.measurement.frequencies.length = 10) := by
  have hlen2 : ∀ (lines : List PyStr) n, 9 ≤ n →
      ((csvRows lines).drop 1).countP
        (validDataRow (identify_columns ((csvRows lines).headD []))) = n →
      ¬ (csvRows lines).length < 2 := by
    intro lines n h9 hcount
    have hle :
        ((csvRows lines).drop 1).countP
            (validDataRow (identify_columns ((csvRows lines).headD []))) ≤
          ((csvRows lines).drop 1).length :=
      List.countP_le_length _
    rw [hcount] at hle
    simp only [List.length_drop] at hle
    omega
  constructor
  · intro k now stem fn fsz lines hne h1 h2 hcount
    have hnl : lines.isEmpty = false := by
      cases lines with
      | nil => exact absurd rfl hne
      | cons a l => rfl
    have hcols : ¬ ((identify_columns ((csvRows lines).headD [])).frequency.isNone = true ∨
        (identify_columns ((csvRows lines).headD [])).magnitude.isNone = true) := by
      rw [Option.isNone_iff_eq_none, Option.isNone_iff_eq_none]
      rintro (hc | hc)
      · rw [hc] at h1; exact absurd h1 (by simp)
      · rw [hc] at h2; exact absurd h2 (by simp)
    simp only [csv_parse_file, hnl, Bool.false_eq_true, if_false]
    rw [if_neg (hlen2 lines 9 (by omega) hcount), if_neg hcols,
      if_pos (by rw [extract_data_length, hcount]; omega)]
  · intro k now stem fn fsz lines hne h1 h2 hcount
    have hnl : lines.isEmpty = false := by
      cases lines with
      | nil => exact absurd rfl hne
      | cons a l => rfl
    have hcols : ¬ ((identify_columns ((csvRows lines).headD [])).frequency.isNone = true ∨
        (identify_columns ((csvRows lines).headD [])).magnitude.isNone = true) := by
      rw [Option.isNone_iff_eq_none, Option.isNone_iff_eq_none]
      rintro (hc | hc)
      · rw [hc] at h1; exact absurd h1 (by simp)
      · rw [hc] at h2; exact absurd h2 (by simp)
    simp only [csv_parse_file, hnl, Bool.false_eq_true, if_false]
    rw [if_neg (hlen2 lines 10 (by omega) hcount), if_neg hcols,
      if_neg (by rw [extract_data_length, hcount]; omega)]
    exact ⟨_, rfl, by rw [extract_data_length, hcount]⟩

/-- A CSV file with a recognizable header and exactly 9 valid data rows. -/
def csv9Lines : List PyStr :=
  ["freq,mag", "1,0", "2,0", "3,0", "4,0", "5,0", "6,0", "7,0", "8,0",
    "9,0"].map String.toList

/-- A CSV file with a recognizable header, 10 valid data rows, and one row
that fails numeric parsing (skipped, not fatal). -/
def csv10Lines : List PyStr :=
  ["freq,mag", "1,0", "2,0", "3,0", "4,0", "5,0", "6,0", "7,0", "8,0",
    "9,0", "10,0", "bad,row"].map String.toList

/-- C7 witness: the 10-row boundary evaluated on concrete files — 9 valid
rows fail with `InsufficientData`, 10 valid rows (plus one unparseable,
skipped row) succeed. -/
theorem c7_csv_ten_row_boundary_witness :
    csv_parse_file (fun q => q) [] [] [] 0 csv9Lines =
        .error .insufficientData ∧
      ∃ r, csv_parse_file (fun q => q) [] [] [] 0 csv10Lines = .ok r ∧
        r.measurement.frequencies.length = 10 :=
  ⟨c7_csv_ten_row_boundary.1 (fun q => q) [] [] [] 0 csv9Lines (by decide)
      (by decide) (by decide) (by decide),
    c7_csv_ten_row_boundary.2 (fun q => q) [] [] [] 0 csv10Lines (by decide)
      (by decide) (by decide) (by decide)⟩

/-! ## C10 — the first data-candidate line is always the header

The CSV parser takes `rows[0]` — the first non-comment, non-blank line —
as the header row unconditionally (lines 162-164) and extracts data only
from `rows[1:]` (line 174), even when that first line is purely numeric
and the positional fallback of `identify_columns` fires. -/

/-- A header cell on which none of the three keyword lists fires (the
situation in a purely numeric header row). -/
def noKeywordCell (cell : PyStr) : Prop :=
  keywordMatch frequency_keywords (pyStrip (pyLower cell)) = false ∧
    keywordMatch magnitude_keywords (pyStrip (pyLower cell)) = false ∧
    keywordMatch phase_keywords (pyStrip (pyLower cell)) = false

instance : DecidablePred noKeywordCell := fun cell => by
  unfold noKeywordCell
  infer_instance

/-- A cell without keyword matches leaves the column table unchanged. -/
theorem identifyStep_no_match (cols : Cols) (ic : ℕ × PyStr)
    (h : noKeywordCell ic.2) : identifyStep cols ic = cols := by
  unfold identifyStep
  rw [if_neg (by simp [h.1]), if_neg (by simp [h.2.1]), if_neg (by simp [h.2.2])]

/-- The keyword scan over match-free cells finds nothing. -/
theorem identify_foldl_no_match :
    ∀ (ps : List (ℕ × PyStr)) (cols : Cols), (∀ pr ∈ ps, noKeywordCell pr.2) →
      ps.foldl identifyStep cols = cols := by
  intro ps
  induction ps with
  | nil => intro cols _; rfl
  | cons pr rest ih =>
    intro cols hall
    rw [List.foldl_cons, identifyStep_no_match cols pr (hall pr (by simp))]
    exact ih cols fun x hx => hall x (List.mem_cons_of_mem pr hx)

/-- C10: the first non-comment, non-blank line is always consumed as the
header row — when none of its cells matches a column keyword the
positional fallback assigns `col0=frequency, col1=magnitude` (and
`col2=phase` for three or more cells) but the row itself is still
excluded from extraction, so a headerless CSV of `N` purely numeric rows
parses into at most `N - 1` data points. -/
theorem c10_header_always_consumed :
    (∀ header_row : List PyStr, (∀ c ∈ header_row, noKeywordCell c) →
      2 ≤ header_row.length →
      identify_columns header_row =
        ⟨some 0, some 1, if 3 ≤ header_row.length then some 2 else none⟩) ∧
    (∀ k now stem fn fsz (lines : List PyStr) r,
      lines ≠ [] → isCommentOrBlank (lines.headD []) = false →
      csv_parse_file k now stem fn fsz lines = .ok r →
      r.measurement.frequencies.length + 1 ≤ lines.length) := by
  constructor
  · intro hr hall hlen
    unfold identify_columns
    have henum : ∀ pr ∈ hr.enum, noKeywordCell pr.2 := by
      intro pr hpr
      apply hall
      have : pr.2 ∈ hr.enum.map Prod.snd := List.mem_map_of_mem Prod.snd hpr
      rwa [List.enum_map_snd] at this
    rw [identify_foldl_no_match hr.enum ⟨none, none, none⟩ henum]
    rw [if_pos ⟨rfl, hlen⟩]
  · intro k now stem fn fsz lines r hne hfirst h
    simp only [csv_parse_file] at h
    split at h
    · exact Except.noConfusion h
    · split at h
      · exact Except.noConfusion h
      · rename_i hrows2
        split at h
        · exact Except.noConfusion h
        · split at h
          · exact Except.noConfusion h
          · have hr := Except.ok.inj h
            subst hr
            show (extract_data (identify_columns ((csvRows lines).headD []))
                ((csvRows lines).drop 1)).1.length + 1 ≤ lines.length
            rw [extract_data_length]
            have hcp : ((csvRows lines).drop 1).countP
                (validDataRow (identify_columns ((csvRows lines).headD []))) ≤
                ((csvRows lines).drop 1).length := List.countP_le_length _
            have hlen : (csvRows lines).length ≤ lines.length := by
              simp [csvRows]
            simp only [List.length_drop] at hcp
            omega

/-- A headerless, purely numeric CSV file with 12 rows (its first row is
consumed as the header by the positional fallback). -/
def c10Lines : List PyStr :=
  ["1,100", "2,100", "3,100", "4,100", "5,100", "6,100", "7,100", "8,100",
    "9,100", "10,100", "11,100", "12,100"].map String.toList

/-- The canonical record the CSV parser produces from `c10Lines` (with
identity `log10` kernel, empty `now`/`stem`/`filename`, zero size): 11
data points — the numeric first row `1,100` is consumed as the header. -/
def c10Record : CanonicalRecord :=
  { asset_metadata :=
      { asset_id := "unknown".toList, manufacturer := "unknown".toList,
        model := "unknown".toList, rating_MVA := 100,
        winding_config := "unknown".toList, serial := "unknown".toList,
        year_installed := 2020, voltage_levels := [132, 33] },
    test_info :=
      { test_id := "test__".toList, date := [], technician := "unknown".toList,
        instrument := "unknown".toList, test_voltage := 1000,
        coupling := "capacitive".toList, ambient_temp := 25 },
    measurement :=
      { frequencies := [2, 3, 4, 5, 6, 7, 8, 9, 10, 11, 12],
        magnitudes := [100, 100, 100, 100, 100, 100, 100, 100, 100, 100, 100],
        phases := none, unit := "dB".toList, phase_unit := none,
        connection := "H1-H2".toList, resolution := 11,
        freq_start := 2, freq_end := 12 },
    raw_file :=
      { filename := [], vendor_name := "generic".toList,
        original_format := "csv".toList, file_size := 0,
        parser_version := "1.0".toList } }

set_option maxRecDepth 100000 in
/-- C10 witness: the positional fallback and the `N - 1` bound evaluated
on the concrete 12-row numeric file — 11 points from 12 rows. -/
theorem c10_header_always_consumed_witness :
    identify_columns (csvRow ',' "1,100".toList) = ⟨some 0, some 1, none⟩ ∧
      csv_parse_file (fun q => q) [] [] [] 0 c10Lines = .ok c10Record ∧
      c10Record.measurement.frequencies.length + 1 ≤ c10Lines.length :=
  ⟨c10_header_always_consumed.1 (csvRow ',' "1,100".toList)
      (by decide) (by decide),
    by with_unfolding_all decide,
    c10_header_always_consumed.2 (fun q => q) [] [] [] 0 c10Lines c10Record
      (by decide) (by decide) (by with_unfolding_all decide)⟩

/-! ## C2 / C6 — the Normalizer's output and its effect on the caller -/

/-- Clip-and-scale keeps every magnitude in `[0, 1]` for the default
−60..60 dB window. -/
theorem normalize_magnitude_bounds (x : ℚ) :
    0 ≤ normalize_magnitude defaultNormalizerConfig x ∧
      normalize_magnitude defaultNormalizerConfig x ≤ 1 := by
  have h1 : (-60 : ℚ) ≤ min (max x (-60)) 60 :=
    le_min (le_trans (by norm_num) (le_max_right x (-60))) (by norm_num)
  have h2 : min (max x (-60)) 60 ≤ 60 := min_le_right _ _
  have hq : normalize_magnitude defaultNormalizerConfig x =
      (min (max x (-60)) 60 - (-60)) / (60 - (-60)) := rfl
  rw [hq]
  constructor
  · exact div_nonneg (by linarith) (by norm_num)
  · rw [div_le_one (by norm_num)]
    linarith

/-- Wrap-and-divide keeps every phase in `[-1, 1]`. -/
theorem normalize_phase_bounds (x : ℚ) :
    -1 ≤ normalize_phase x ∧ normalize_phase x ≤ 1 := by
  have h := abs_sub_round (x / 360)
  rw [abs_le] at h
  obtain ⟨h1, h2⟩ := h
  unfold normalize_phase wrapDeg
  constructor
  · rw [le_div_iff₀ (by norm_num : (0 : ℚ) < 180)]
    linarith
  · rw [div_le_one (by norm_num : (0 : ℚ) < 180)]
    linarith

/-- A 10-point in-range record with phases, exercised by the Normalizer
theorems: frequencies 30-120 kHz, strictly inside the default grid. -/
def c2Record : CanonicalRecord :=
  { asset_metadata := sampleAsset, test_info := sampleTest,
    measurement :=
      { frequencies := [30000, 40000, 50000, 60000, 70000, 80000, 90000,
          100000, 110000, 120000],
        magnitudes := [45, 44, 43, 42, 41, 40, 39, 38, 37, 36],
        phases := some [5, 4, 3, 2, 1, 0, -1, -2, -3, -4],
        unit := "dB".toList, phase_unit := some "degrees".toList,
        connection := "H1-H2".toList, resolution := 10,
        freq_start := 30000, freq_end := 120000 },
    raw_file := sampleRaw }

set_option maxRecDepth 100000 in
/-- C2: `process_fra_data` mutates the caller's record in place.  Line 298
takes a **shallow** `dict.copy()`, so the `'measurement'` dict stays
shared between the caller's record and the returned one; the item
assignments of lines 299-305 therefore overwrite the caller's measurement
with the resampled arrays.  After a successful call on the concrete valid
record `c2Record`, the caller's frequency array is the 4096-point target
grid — no longer the 10 original values — and the caller's measurement is
the same object as the returned record's. -/
theorem c2_process_mutates_caller (log10k : ℚ → ℚ) (gridK : ℕ → ℚ)
    (cubicMagK cubicPhaseK : List ℚ → List ℚ → ℚ → ℚ)
    (savgolK : ℕ → ℕ → List ℚ → List ℚ) (waveletK : List ℚ → List ℚ)
    (cubic_ok : Bool) :
    ∃ o, process_fra_data log10k gridK cubicMagK cubicPhaseK savgolK waveletK
        cubic_ok defaultNormalizerConfig true false c2Record = .ok o ∧
      o.callerRecord.measurement.frequencies ≠
        c2Record.measurement.frequencies ∧
      o.callerRecord.measurement = o.result.measurement := by
  have hfreq : ∀ gk : ℕ → ℚ, ((List.range 4096).map gk) ≠
      c2Record.measurement.frequencies := by
    intro gk hcc
    have hl := congrArg List.length hcc
    simp [c2Record] at hl
  cases cubic_ok with
  | false =>
    have hres : resample_to_common_grid gridK cubicMagK cubicPhaseK false
        defaultNormalizerConfig c2Record.measurement.frequencies
        (prepMags log10k c2Record.measurement)
        (prepPhases c2Record.measurement) =
        .ok ((List.range 4096).map gridK,
          ((List.range 4096).map gridK).map (interpLinear
            ([(30000 : ℚ), 40000, 50000, 60000, 70000, 80000, 90000, 100000,
              110000, 120000].zip
              [(45 : ℚ), 44, 43, 42, 41, 40, 39, 38, 37, 36])),
          some (((List.range 4096).map gridK).map (interpLinear
            ([(30000 : ℚ), 40000, 50000, 60000, 70000, 80000, 90000, 100000,
              110000, 120000].zip
              [(5 : ℚ), 4, 3, 2, 1, 0, -1, -2, -3, -4])))) := by
      with_unfolding_all rfl
    simp only [process_fra_data, hres]
    exact ⟨_, rfl, hfreq gridK, rfl⟩
  | true =>
    have hres : resample_to_common_grid gridK cubicMagK cubicPhaseK true
        defaultNormalizerConfig c2Record.measurement.frequencies
        (prepMags log10k c2Record.measurement)
        (prepPhases c2Record.measurement) =
        .ok ((List.range 4096).map gridK,
          ((List.range 4096).map gridK).map (cubicMagK
            [(30000 : ℚ), 40000, 50000, 60000, 70000, 80000, 90000, 100000,
              110000, 120000]
            [(45 : ℚ), 44, 43, 42, 41, 40, 39, 38, 37, 36]),
          some (((List.range 4096).map gridK).map (cubicPhaseK
            [(30000 : ℚ), 40000, 50000, 60000, 70000, 80000, 90000, 100000,
              110000, 120000]
            [(5 : ℚ), 4, 3, 2, 1, 0, -1, -2, -3, -4]))) := by
      with_unfolding_all rfl
    simp only [process_fra_data, hres]
    exact ⟨_, rfl, hfreq gridK, rfl⟩

/-- C6: with the default configuration (4096 log-spaced target points,
20 kHz-12 MHz, −60..60 dB window) and filtering on, `process_fra_data` on
any record whose cleaned input keeps at least 10 points returns a record
whose frequency array has exactly 4096 points, and the normalized arrays
kept in the processing-metadata block satisfy: every normalized magnitude
lies in `[0, 1]` (clip to −60..60 dB, then linear map) and every
normalized phase lies in `[-1, 1]` (wrap to `[-180, 180]` degrees, then
divide by 180) — for every interpolation, smoothing and `log10` kernel. -/
theorem c6_default_normalization (log10k : ℚ → ℚ) (gridK : ℕ → ℚ)
    (cubicMagK cubicPhaseK : List ℚ → List ℚ → ℚ → ℚ)
    (savgolK : ℕ → ℕ → List ℚ → List ℚ) (waveletK : List ℚ → List ℚ)
    (cubic_ok : Bool) (r : CanonicalRecord)
    (hn : ¬ (cleanInput defaultNormalizerConfig r.measurement.frequencies
        (prepMags log10k r.measurement)
        ((prepPhases r.measurement).getD
          (List.replicate r.measurement.frequencies.length 0))).length < 10) :
    ∃ o, process_fra_data log10k gridK cubicMagK cubicPhaseK savgolK waveletK
        cubic_ok defaultNormalizerConfig true false r = .ok o ∧
      o.result.measurement.frequencies.length = 4096 ∧
      (∀ m ∈ o.processing_metadata.magnitudes_normalized, 0 ≤ m ∧ m ≤ 1) ∧
      (∀ l, o.processing_metadata.phases_normalized = some l →
        ∀ p ∈ l, -1 ≤ p ∧ p ≤ 1) := by
  have hmag : ∀ (src : List ℚ) (m : ℚ),
      m ∈ src.map (normalize_magnitude defaultNormalizerConfig) →
      0 ≤ m ∧ m ≤ 1 := by
    intro src m hm
    obtain ⟨x, -, rfl⟩ := List.mem_map.mp hm
    exact normalize_magnitude_bounds x
  have hph : ∀ (rp : Option (List ℚ)) (l : List ℚ),
      rp.map (fun l0 => l0.map normalize_phase) = some l →
      ∀ p ∈ l, -1 ≤ p ∧ p ≤ 1 := by
    intro rp l hl p hp
    cases rp with
    | none => exact absurd hl (by simp)
    | some l0 =>
      simp only [Option.map_some', Option.some.injEq] at hl
      subst hl
      obtain ⟨x, -, rfl⟩ := List.mem_map.mp hp
      exact normalize_phase_bounds x
  cases cubic_ok with
  | false =>
    simp only [process_fra_data, resample_to_common_grid, if_neg hn,
      Bool.false_eq_true, if_false]
    refine ⟨_, rfl, by simp [defaultNormalizerConfig], hmag _, hph _⟩
  | true =>
    simp only [process_fra_data, resample_to_common_grid, if_neg hn, if_true]
    refine ⟨_, rfl, by simp [defaultNormalizerConfig], hmag _, hph _⟩

/-- A 10-point in-range record with phases for the C6 witness:
frequencies 200 kHz-1.1 MHz. -/
def c6Record : CanonicalRecord :=
  { asset_metadata := sampleAsset, test_info := sampleTest,
    measurement :=
      { frequencies := [200000, 300000, 400000, 500000, 600000, 700000,
          800000, 900000, 1000000, 1100000],
        magnitudes := [50, 45, 40, 35, 30, 25, 20, 15, 10, 5],
        phases := some [170, 150, 120, 90, 60, 30, 0, -30, -60, -90],
        unit := "dB".toList, phase_unit := some "degrees".toList,
        connection := "H1-H2".toList, resolution := 10,
        freq_start := 200000, freq_end := 1100000 },
    raw_file := sampleRaw }

/-- C6 witness: the default-configuration bounds evaluated with concrete
kernels on `c6Record`. -/
theorem c6_default_normalization_witness :
    ∃ o, process_fra_data (fun q => q) (fun _ => 100000) (fun _ _ _ => 0)
        (fun _ _ _ => 0) (fun _ _ l => l) (fun l => l) true
        defaultNormalizerConfig true false c6Record = .ok o ∧
      o.result.measurement.frequencies.length = 4096 ∧
      (∀ m ∈ o.processing_metadata.magnitudes_normalized, 0 ≤ m ∧ m ≤ 1) ∧
      (∀ l, o.processing_metadata.phases_normalized = some l →
        ∀ p ∈ l, -1 ≤ p ∧ p ≤ 1) :=
  c6_default_normalization (fun q => q) (fun _ => 100000) (fun _ _ _ => 0)
    (fun _ _ _ => 0) (fun _ _ l => l) (fun l => l) true c6Record
    (by with_unfolding_all decide)

end UniFRA
